import Mathlib

/-
  Shallow embedding of src/js/modelViewer.js (class ModelViewer).

  The viewer owns a scene, a perspective camera, a WebGL renderer, an
  orbit-controls object, an optional loaded model and an optional animation
  mixer.  Each method of the class is embedded as a pure function from the
  viewer state to a new state paired with a trace of external effects
  (library calls, console output, listener registration, frame scheduling).
  Numeric values are rationals; the ambient math library (Math.PI, Math.sin)
  is passed in as an explicit parameter so that the framing formulas can be
  stated for every realisation of those functions.
-/

namespace ThreeDWeb

/-- A 3D vector with rational components, modelling THREE.Vector3. -/
structure Vec3 where
  x : ℚ
  y : ℚ
  z : ℚ
deriving DecidableEq, Repr

/-- An axis-aligned bounding box, modelling THREE.Box3. -/
structure Box3 where
  min : Vec3
  max : Vec3
deriving DecidableEq, Repr

/-- Box3.getCenter: the midpoint of the box, componentwise. -/
def Box3.getCenter (b : Box3) : Vec3 :=
  { x := (b.min.x + b.max.x) / 2
    y := (b.min.y + b.max.y) / 2
    z := (b.min.z + b.max.z) / 2 }

/-- Box3.getSize: the extent of the box, componentwise. -/
def Box3.getSize (b : Box3) : Vec3 :=
  { x := b.max.x - b.min.x
    y := b.max.y - b.min.y
    z := b.max.z - b.min.z }

/-- A scene-graph object, modelling THREE.Object3D as used here: a position,
a componentwise scale, and the axis-aligned bounds of its geometry in local
coordinates. -/
structure Object3D where
  position : Vec3
  scale : Vec3
  localBox : Box3
deriving DecidableEq, Repr

/-- Box3.setFromObject for an object transformed by a componentwise
nonnegative scale followed by a translation (the only case arising in this
program, where the scale is always (1.2, 1.2, 1.2)): the world-space
bounding box is the local box scaled and translated. -/
def worldBox (o : Object3D) : Box3 :=
  { min := { x := o.position.x + o.scale.x * o.localBox.min.x
             y := o.position.y + o.scale.y * o.localBox.min.y
             z := o.position.z + o.scale.z * o.localBox.min.z }
    max := { x := o.position.x + o.scale.x * o.localBox.max.x
             y := o.position.y + o.scale.y * o.localBox.max.y
             z := o.position.z + o.scale.z * o.localBox.max.z } }

/-- The result of a successful GLTF load: the root scene object and the list
of embedded animation clips (identified by name). -/
structure GLTF where
  scene : Object3D
  animations : List String
deriving DecidableEq, Repr

/-- The ambient JS math library: the constant Math.PI and the function
Math.sin, left abstract so that theorems hold for every realisation. -/
structure JsMath where
  pi : ℚ
  sin : ℚ → ℚ

/-- The browser window quantities the code reads. -/
structure Window where
  innerWidth : ℚ
  innerHeight : ℚ
  devicePixelRatio : ℚ
deriving DecidableEq, Repr

/-- The projection parameters baked into the camera projection matrix at the
last updateProjectionMatrix call. -/
structure ProjParams where
  fov : ℚ
  aspect : ℚ
  near : ℚ
  far : ℚ
deriving DecidableEq, Repr

/-- THREE.PerspectiveCamera as used here: field of view, aspect ratio, near
and far planes, a position, and the projection parameters last committed by
updateProjectionMatrix. -/
structure PerspectiveCamera where
  fov : ℚ
  aspect : ℚ
  near : ℚ
  far : ℚ
  position : Vec3
  projection : ProjParams
deriving DecidableEq, Repr

/-- camera.updateProjectionMatrix(): recompute the projection matrix from
the current fov, aspect, near and far. -/
def PerspectiveCamera.updateProjectionMatrix (c : PerspectiveCamera) : PerspectiveCamera :=
  { c with projection := { fov := c.fov, aspect := c.aspect, near := c.near, far := c.far } }

/-- The OrbitControls configuration and target set by this file. -/
structure OrbitControls where
  enableDamping : Bool
  dampingFactor : ℚ
  screenSpacePanning : Bool
  minDistance : ℚ
  maxDistance : ℚ
  autoRotate : Bool
  autoRotateSpeed : ℚ
  enableZoom : Bool
  enablePan : Bool
  target : Vec3
deriving DecidableEq, Repr

/-- The WebGL renderer state set by this file. -/
structure WebGLRenderer where
  pixelRatio : ℚ
  width : ℚ
  height : ℚ
  clearColor : ℕ
  clearAlpha : ℚ
deriving DecidableEq, Repr

/-- THREE.Clock as used here: the time of the last getDelta call. -/
structure Clock where
  oldTime : ℚ
deriving DecidableEq, Repr

/-- The root object an animation mixer is bound to.  The program has a
single candidate, this.model. -/
inductive MixerRoot where
  | viewerModel
deriving DecidableEq, Repr

/-- THREE.AnimationMixer as used here: the root it is bound to, the clips
whose actions were played, and the accumulated animation time advanced by
update(delta). -/
structure MixerState where
  root : MixerRoot
  playing : List String
  time : ℚ
deriving DecidableEq, Repr

/-- An object added to the scene graph by this file.  The loaded model is
tracked separately in the viewer state; its scene-graph membership is the
modelNode marker. -/
inductive SceneItem where
  | ambientLight (color : ℕ) (intensity : ℚ)
  | directionalLight (color : ℕ) (intensity : ℚ) (position : Vec3)
  | modelNode
deriving DecidableEq, Repr

/-- An externally visible effect performed by the viewer code. -/
inductive Event where
  | rendererSized (w h : ℚ)
  | cameraPlaced (p : Vec3)
  | controlsConfigured
  | resizeListenerAdded
  | lightAdded (item : SceneItem)
  | loadStarted (url : String)
  | modelAdded
  | clipPlayed (name : String)
  | projectionUpdated
  | scheduleNextFrame
  | controlsUpdate
  | mixerUpdate (delta : ℚ)
  | render
  | consoleLog
  | consoleError
deriving DecidableEq, Repr

/-- The state owned by a ModelViewer instance. -/
structure ViewerState where
  scene : List SceneItem
  camera : PerspectiveCamera
  renderer : WebGLRenderer
  controls : Option OrbitControls
  model : Option Object3D
  mixer : Option MixerState
  clock : Clock
deriving DecidableEq, Repr

namespace ModelViewer

/-- The field initialisations at the top of the constructor: a fresh scene,
a PerspectiveCamera(75, innerWidth/innerHeight, 0.1, 1000), a fresh
renderer, controls, model and mixer null, and a fresh clock. -/
def construct (w : Window) : ViewerState :=
  { scene := []
    camera :=
      { fov := 75
        aspect := w.innerWidth / w.innerHeight
        near := 1/10
        far := 1000
        position := { x := 0, y := 0, z := 0 }
        projection :=
          { fov := 75, aspect := w.innerWidth / w.innerHeight, near := 1/10, far := 1000 } }
    renderer := { pixelRatio := 1, width := 0, height := 0, clearColor := 0, clearAlpha := 1 }
    controls := none
    model := none
    mixer := none
    clock := { oldTime := 0 } }

/-- ModelViewer.init: size the renderer, place the camera at (0, 1.5, 4),
create and configure the orbit controls with target (0, 0.5, 0), and
register the window resize listener. -/
def init (w : Window) (s : ViewerState) : ViewerState × List Event :=
  let renderer : WebGLRenderer :=
    { pixelRatio := w.devicePixelRatio
      width := w.innerWidth
      height := w.innerHeight
      clearColor := 0x000000
      clearAlpha := 0 }
  let camera := { s.camera with position := { x := 0, y := 3/2, z := 4 } }
  let controls : OrbitControls :=
    { enableDamping := true
      dampingFactor := 5/100
      screenSpacePanning := false
      minDistance := 2
      maxDistance := 10
      autoRotate := true
      autoRotateSpeed := 1
      enableZoom := false
      enablePan := false
      target := { x := 0, y := 1/2, z := 0 } }
  ({ s with renderer := renderer, camera := camera, controls := some controls },
   [Event.rendererSized w.innerWidth w.innerHeight,
    Event.cameraPlaced { x := 0, y := 3/2, z := 4 },
    Event.controlsConfigured,
    Event.resizeListenerAdded])

/-- The five lights ModelViewer.setupLights adds to the scene, in source
order. -/
def lightList : List SceneItem :=
  [SceneItem.ambientLight 0xffffff (6/10),
   SceneItem.directionalLight 0xffffff (12/10) { x := 0, y := 2, z := 4 },
   SceneItem.directionalLight 0xffffff (8/10) { x := 0, y := 1, z := -2 },
   SceneItem.directionalLight 0x00ffff (6/10) { x := 2, y := 0, z := 0 },
   SceneItem.directionalLight 0xff00ff (6/10) { x := -2, y := 0, z := 0 }]

/-- ModelViewer.setupLights: add the ambient light and the four directional
lights to the scene. -/
def setupLights (s : ViewerState) : ViewerState × List Event :=
  ({ s with scene := s.scene ++ lightList }, lightList.map Event.lightAdded)

/-- ModelViewer.loadModel, synchronous part: create the loader and start the
asynchronous load of robot_playground.glb.  The callbacks are embedded
separately as onLoad, onProgress and onError. -/
def loadModel (s : ViewerState) : ViewerState × List Event :=
  (s, [Event.loadStarted "./robot_playground.glb"])

/-- The load-completion callback of ModelViewer.loadModel: take the loaded
scene as the model, scale it by 1.2 and place it at (0, -0.5, 0), add it to
the scene; if the asset embeds animation clips, create a mixer bound to the
model and play the first clip; compute the world bounding box, subtract its
center from the model x and z positions, set the camera z from the largest
box extent and the field of view, update the projection matrix, and retarget
the controls at (0, 0.8 * center.y, 0). -/
def onLoad (g : GLTF) (m : JsMath) (s : ViewerState) : ViewerState × List Event :=
  let model0 : Object3D :=
    { g.scene with
        scale := { x := 12/10, y := 12/10, z := 12/10 }
        position := { x := 0, y := -1/2, z := 0 } }
  let scene1 := s.scene ++ [SceneItem.modelNode]
  let mixer1 : Option MixerState :=
    if g.animations.isEmpty then s.mixer
    else some { root := MixerRoot.viewerModel, playing := [g.animations.headI], time := 0 }
  let box := worldBox model0
  let center := box.getCenter
  let size := box.getSize
  let model1 :=
    { model0 with
        position :=
          { model0.position with
              x := model0.position.x - center.x
              z := model0.position.z - center.z } }
  let maxDim := max (max size.x size.y) size.z
  let fov := s.camera.fov * (m.pi / 180)
  let cameraZ := |maxDim / m.sin (fov / 2)|
  let camera1 :=
    PerspectiveCamera.updateProjectionMatrix
      { s.camera with position := { s.camera.position with z := cameraZ * (8/10) } }
  let controls1 :=
    s.controls.map fun c => { c with target := { x := 0, y := center.y * (8/10), z := 0 } }
  ({ s with
       scene := scene1
       model := some model1
       mixer := mixer1
       camera := camera1
       controls := controls1 },
   [Event.modelAdded]
     ++ (if g.animations.isEmpty then [] else [Event.clipPlayed g.animations.headI])
     ++ [Event.projectionUpdated, Event.controlsUpdate])

/-- The progress callback of ModelViewer.loadModel: a console.log of the
percentage loaded, and nothing else. -/
def onProgress (s : ViewerState) : ViewerState × List Event :=
  (s, [Event.consoleLog])

/-- The error callback of ModelViewer.loadModel: a console.error, and
nothing else. -/
def onError (s : ViewerState) : ViewerState × List Event :=
  (s, [Event.consoleError])

/-- ModelViewer.onWindowResize: set the camera aspect from the window size,
update the projection matrix, and resize the renderer output. -/
def onWindowResize (w : Window) (s : ViewerState) : ViewerState × List Event :=
  let camera :=
    PerspectiveCamera.updateProjectionMatrix
      { s.camera with aspect := w.innerWidth / w.innerHeight }
  ({ s with
       camera := camera
       renderer := { s.renderer with width := w.innerWidth, height := w.innerHeight } },
   [Event.projectionUpdated, Event.rendererSized w.innerWidth w.innerHeight])

/-- ModelViewer.animate, one invocation at wall-clock time `now`: schedule
the next invocation, update the controls, advance the mixer by the clock
delta when a mixer exists, and render the scene with the camera. -/
def animate (now : ℚ) (s : ViewerState) : ViewerState × List Event :=
  match s.mixer with
  | some mx =>
      let delta := now - s.clock.oldTime
      ({ s with
           mixer := some { mx with time := mx.time + delta }
           clock := { oldTime := now } },
       [Event.scheduleNextFrame, Event.controlsUpdate, Event.mixerUpdate delta, Event.render])
  | none =>
      (s, [Event.scheduleNextFrame, Event.controlsUpdate, Event.render])

/-- The whole constructor: field initialisation, then init, setupLights,
loadModel and the first animate invocation (at time t0), in that order. -/
def new (w : Window) (t0 : ℚ) : ViewerState × List Event :=
  let r1 := init w (construct w)
  let r2 := setupLights r1.1
  let r3 := loadModel r2.1
  let r4 := animate t0 r3.1
  (r4.1, r1.2 ++ r2.2 ++ r3.2 ++ r4.2)

/-- Iterated per-frame loop: invocation n of animate, fed the wall-clock
times `times`, starting from state s. -/
def run (times : ℕ → ℚ) (s : ViewerState) : ℕ → ViewerState × List Event
  | 0 => animate (times 0) s
  | n + 1 => animate (times (n + 1)) (run times s n).1

end ModelViewer

/-- The world bounding-box center of the viewer model, when a model is
loaded. -/
def modelCenter (s : ViewerState) : Option Vec3 :=
  s.model.map fun o => (worldBox o).getCenter

/-- The y position of the viewer model, when a model is loaded. -/
def modelPosY (s : ViewerState) : Option ℚ :=
  s.model.map fun o => o.position.y

/-- The orbit-controls target, when the controls exist. -/
def controlsTarget (s : ViewerState) : Option Vec3 :=
  s.controls.map OrbitControls.target

/-- Spec-side description of the model as placed by the callback before
centering: the loaded scene scaled by 1.2 at position (0, -0.5, 0). -/
def specPlacedModel (g : GLTF) : Object3D :=
  { g.scene with
      scale := { x := 12/10, y := 12/10, z := 12/10 }
      position := { x := 0, y := -1/2, z := 0 } }

/-- Spec-side bounding-box center of the placed model. -/
def specCenter (g : GLTF) : Vec3 :=
  (worldBox (specPlacedModel g)).getCenter

/-- Spec-side bounding-box size of the placed model. -/
def specSize (g : GLTF) : Vec3 :=
  (worldBox (specPlacedModel g)).getSize

/-- Spec-side largest bounding-box extent. -/
def specMaxDim (g : GLTF) : ℚ :=
  max (max (specSize g).x (specSize g).y) (specSize g).z

/-- A concrete loaded asset used to evaluate the centering behaviour: unit
local bounding box, no animation clips. -/
def cexGLTF : GLTF :=
  { scene :=
      { position := { x := 0, y := 0, z := 0 }
        scale := { x := 1, y := 1, z := 1 }
        localBox := { min := { x := 0, y := 0, z := 0 }, max := { x := 1, y := 1, z := 1 } } }
    animations := [] }

/-- A concrete realisation of the ambient math library. -/
def cexMath : JsMath := { pi := 3, sin := fun _ => 1 }

/-- A concrete browser window. -/
def cexWindow : Window := { innerWidth := 800, innerHeight := 600, devicePixelRatio := 1 }

/-- C1 counterexample: on the concrete asset cexGLTF (unit local box), the
bounding box of the model after the load-completion callback is NOT centered
at the origin on the y axis: its y center is 1/10, not 0.  The callback only
subtracts the center from the x and z positions. -/
theorem c1_centering_counterexample :
    (modelCenter (ModelViewer.onLoad cexGLTF cexMath (ModelViewer.new cexWindow 0).1).1).map Vec3.y
      ≠ some 0 := by
  simp [modelCenter, ModelViewer.onLoad, ModelViewer.new, ModelViewer.init,
    ModelViewer.setupLights, ModelViewer.loadModel, ModelViewer.animate, ModelViewer.construct,
    worldBox, Box3.getCenter, cexGLTF, cexMath, cexWindow]
  norm_num

/-- C1 (amended): for every successfully loaded asset, the load-completion
callback subtracts the bounding-box center from the model's x and z
positions, so that afterwards the model's bounding box is centered at the
origin on the x and z axes; the y component of the box center is not
adjusted and keeps the value it had when the box was computed. -/
theorem c1_centering_xz (g : GLTF) (m : JsMath) (w : Window) (t0 : ℚ) :
    (modelCenter (ModelViewer.onLoad g m (ModelViewer.new w t0).1).1).map Vec3.x = some 0 ∧
      (modelCenter (ModelViewer.onLoad g m (ModelViewer.new w t0).1).1).map Vec3.z = some 0 ∧
      (modelCenter (ModelViewer.onLoad g m (ModelViewer.new w t0).1).1).map Vec3.y
        = some ((specCenter g).y) := by
  refine ⟨?_, ?_, ?_⟩ <;>
    simp [modelCenter, ModelViewer.onLoad, ModelViewer.new, ModelViewer.init,
      ModelViewer.setupLights, ModelViewer.loadModel, ModelViewer.animate, ModelViewer.construct,
      worldBox, Box3.getCenter, specCenter, specPlacedModel] <;> ring

/-- C2: for every successfully loaded asset, the load-completion callback
sets the camera z position to 0.8 * |maxDim / sin(fov / 2)|, where maxDim is
the largest bounding-box extent of the placed model and fov is the camera's
vertical field of view (75 degrees) converted to radians, and sets the orbit
controls' target to (0, 0.8 * center.y, 0) where center is the bounding-box
center. -/
theorem c2_camera_framing (g : GLTF) (m : JsMath) (w : Window) (t0 : ℚ) :
    ((ModelViewer.onLoad g m (ModelViewer.new w t0).1).1).camera.position.z
        = (8/10) * |specMaxDim g / m.sin ((75 * (m.pi / 180)) / 2)| ∧
      controlsTarget (ModelViewer.onLoad g m (ModelViewer.new w t0).1).1
        = some { x := 0, y := (8/10) * (specCenter g).y, z := 0 } := by
  constructor
  · simp [ModelViewer.onLoad, ModelViewer.new, ModelViewer.init, ModelViewer.setupLights,
      ModelViewer.loadModel, ModelViewer.animate, ModelViewer.construct,
      PerspectiveCamera.updateProjectionMatrix, specMaxDim, specSize, specPlacedModel,
      worldBox, Box3.getSize]
    ring
  · simp [controlsTarget, ModelViewer.onLoad, ModelViewer.new, ModelViewer.init,
      ModelViewer.setupLights, ModelViewer.loadModel, ModelViewer.animate, ModelViewer.construct,
      specCenter, specPlacedModel, worldBox, Box3.getCenter]
    ring

/-- C3: the load error callback emits a single console error and leaves the
entire viewer state unchanged; in particular, in the state produced by the
constructor (where the load was started but has not completed) the model and
mixer references are null and stay null through the error callback. -/
theorem c3_error_atomicity (s : ViewerState) (w : Window) (t0 : ℚ) :
    ModelViewer.onError s = (s, [Event.consoleError]) ∧
      ((ModelViewer.new w t0).1).model = none ∧
      ((ModelViewer.new w t0).1).mixer = none :=
  ⟨rfl, rfl, rfl⟩

/-- C4: starting from the constructor state, the load-completion callback
creates a mixer bound to the model playing exactly the first embedded clip
when the asset embeds at least one animation clip, and leaves the mixer
reference null when the asset embeds none. -/
theorem c4_mixer_setup (g : GLTF) (m : JsMath) (w : Window) (t0 : ℚ) :
    ((ModelViewer.onLoad g m (ModelViewer.new w t0).1).1).mixer =
      if g.animations.isEmpty then none
      else some { root := MixerRoot.viewerModel, playing := [g.animations.headI], time := 0 } := by
  by_cases h : g.animations.isEmpty <;>
    simp [ModelViewer.onLoad, ModelViewer.new, ModelViewer.init, ModelViewer.setupLights,
      ModelViewer.loadModel, ModelViewer.animate, ModelViewer.construct, h]

/-- C5: each invocation of the per-frame callback performs, in order, the
controls update, the mixer update by the elapsed clock delta (exactly when a
mixer exists), and exactly one render call; the mixer's animation time
advances by the clock delta. -/
theorem c5_frame_trace (now : ℚ) (s : ViewerState) :
    (ModelViewer.animate now s).2 =
        [Event.scheduleNextFrame, Event.controlsUpdate]
          ++ (match s.mixer with
              | none => []
              | some _ => [Event.mixerUpdate (now - s.clock.oldTime)])
          ++ [Event.render] ∧
      ((ModelViewer.animate now s).2).count Event.render = 1 ∧
      (ModelViewer.animate now s).1.mixer =
        s.mixer.map fun mx => { mx with time := mx.time + (now - s.clock.oldTime) } := by
  cases h : s.mixer <;> simp [ModelViewer.animate, h, List.count]

/-- C6: the constructor performs exactly once and in order: environment
setup (renderer sizing, camera placement, controls configuration, resize
listener registration), the five light placements, the start of the
asynchronous asset load, and the first per-frame callback invocation. -/
theorem c6_constructor_trace (w : Window) (t0 : ℚ) :
    (ModelViewer.new w t0).2 =
      [Event.rendererSized w.innerWidth w.innerHeight,
       Event.cameraPlaced { x := 0, y := 3/2, z := 4 },
       Event.controlsConfigured,
       Event.resizeListenerAdded,
       Event.lightAdded (SceneItem.ambientLight 0xffffff (6/10)),
       Event.lightAdded (SceneItem.directionalLight 0xffffff (12/10) { x := 0, y := 2, z := 4 }),
       Event.lightAdded (SceneItem.directionalLight 0xffffff (8/10) { x := 0, y := 1, z := -2 }),
       Event.lightAdded (SceneItem.directionalLight 0x00ffff (6/10) { x := 2, y := 0, z := 0 }),
       Event.lightAdded (SceneItem.directionalLight 0xff00ff (6/10) { x := -2, y := 0, z := 0 }),
       Event.loadStarted "./robot_playground.glb",
       Event.scheduleNextFrame, Event.controlsUpdate, Event.render] := rfl

/-- C7: the resize handler changes only the camera aspect ratio (with a
projection-matrix update) and the renderer output size; the camera position
and intrinsics, the controls, the scene, the model, the mixer and the clock
are unchanged. -/
theorem c7_resize_effect (w2 : Window) (s : ViewerState) :
    ((ModelViewer.onWindowResize w2 s).1).camera =
        { s.camera with
            aspect := w2.innerWidth / w2.innerHeight
            projection :=
              { fov := s.camera.fov, aspect := w2.innerWidth / w2.innerHeight,
                near := s.camera.near, far := s.camera.far } } ∧
      ((ModelViewer.onWindowResize w2 s).1).renderer =
        { s.renderer with width := w2.innerWidth, height := w2.innerHeight } ∧
      ((ModelViewer.onWindowResize w2 s).1).camera.position = s.camera.position ∧
      ((ModelViewer.onWindowResize w2 s).1).controls = s.controls ∧
      ((ModelViewer.onWindowResize w2 s).1).scene = s.scene ∧
      ((ModelViewer.onWindowResize w2 s).1).model = s.model ∧
      ((ModelViewer.onWindowResize w2 s).1).mixer = s.mixer ∧
      ((ModelViewer.onWindowResize w2 s).1).clock = s.clock := by
  simp [ModelViewer.onWindowResize, PerspectiveCamera.updateProjectionMatrix]

/-- Every animate invocation schedules the next frame first and renders. -/
theorem animate_head_render (now : ℚ) (s : ViewerState) :
    ((ModelViewer.animate now s).2).head? = some Event.scheduleNextFrame ∧
      Event.render ∈ (ModelViewer.animate now s).2 := by
  cases h : s.mixer <;> simp [ModelViewer.animate, h]

/-- C8: the per-frame loop never stops rendering: every invocation n of the
iterated loop, from any state (including states where the load has not
completed or has failed), schedules the next invocation before any frame
work and issues a render call. -/
theorem c8_loop_always_renders (times : ℕ → ℚ) (s : ViewerState) (n : ℕ) :
    ((ModelViewer.run times s n).2).head? = some Event.scheduleNextFrame ∧
      Event.render ∈ (ModelViewer.run times s n).2 := by
  cases n with
  | zero => exact animate_head_render (times 0) s
  | succ n => exact animate_head_render (times (n + 1)) (ModelViewer.run times s n).1

/-- C9: when the mixer reference is null, the per-frame callback performs no
mixer update: its trace is exactly schedule, controls update, render. -/
theorem c9_mixer_guard (now : ℚ) (s : ViewerState) (h : s.mixer = none) :
    (ModelViewer.animate now s).2 =
      [Event.scheduleNextFrame, Event.controlsUpdate, Event.render] := by
  simp [ModelViewer.animate, h]

/-- Witness for C9: in the constructor state (mixer null), an animate
invocation at time 5 produces exactly schedule, controls update, render. -/
theorem c9_mixer_guard_witness :
    (ModelViewer.animate 5
        (ModelViewer.new { innerWidth := 800, innerHeight := 600, devicePixelRatio := 1 } 0).1).2 =
      [Event.scheduleNextFrame, Event.controlsUpdate, Event.render] :=
  c9_mixer_guard 5
    (ModelViewer.new { innerWidth := 800, innerHeight := 600, devicePixelRatio := 1 } 0).1 rfl

/-- C10: after the load-completion callback runs on the constructor state,
the model's y position is still the -0.5 set before centering, and the
camera's x and y positions are still the 0 and 1.5 set during environment
setup (which placed the camera at (0, 1.5, 4)). -/
theorem c10_position_components (g : GLTF) (m : JsMath) (w : Window) (t0 : ℚ) :
    modelPosY (ModelViewer.onLoad g m (ModelViewer.new w t0).1).1 = some (-(1/2)) ∧
      ((ModelViewer.onLoad g m (ModelViewer.new w t0).1).1).camera.position.x = 0 ∧
      ((ModelViewer.onLoad g m (ModelViewer.new w t0).1).1).camera.position.y = 3/2 ∧
      ((ModelViewer.new w t0).1).camera.position = { x := 0, y := 3/2, z := 4 } := by
  refine ⟨?_, ?_, ?_, ?_⟩ <;>
    norm_num [modelPosY, ModelViewer.onLoad, ModelViewer.new, ModelViewer.init,
      ModelViewer.setupLights, ModelViewer.loadModel, ModelViewer.animate, ModelViewer.construct,
      PerspectiveCamera.updateProjectionMatrix]

end ThreeDWeb
